import Mathlib

/-!
Shallow embedding of the per-backend lock protocol of `sqlalchemy_dlock`
(package `src/sqlalchemy_dlock/lock/`): the lock state machine of `base.py`,
the MySQL named-lock, PostgreSQL advisory-lock, MSSQL application-lock and
Oracle user-lock backends, together with their key-normalization helpers.

Database interaction is modelled by passing the replies of the database as
explicit inputs, and every method call yields a `Call` record: the returned
value or the raised Python exception, the lock object's state after the call,
and the ordered list of observable effects (SQL statements executed on the
connection, sleeps of the polling loop, emitted warnings).
Python ints are `Int`, Python floats used for times and timeouts are `Rat`
(the code only compares and subtracts them), `None`-able arguments are
`Option`.
-/

deriving instance DecidableEq for Except

namespace SqlalchemyDlock

/-- an observable side effect of a lock-method call: an SQL statement executed
on the connection, a sleep of the timeout-emulation loop, or a warning -/
inductive Event (S : Type) where
  | exec (stmt : S)
  | sleep (seconds : Rat)
  | warn
deriving DecidableEq

/-- the outcome of one lock-method call: the returned value or the raised
exception, the state of the lock object after the call, and the observable
effects in order of occurrence -/
structure Call (σ ε α S : Type) where
  ret : Except ε α
  state : σ
  events : List (Event S)
deriving DecidableEq

/-! ## Lock state machine, `lock/base.py`

`BaseSadLock.acquire` / `release` / `close` / `__enter__` / `__exit__` are
generic over the backend: the concrete `do_acquire` / `do_release` body is a
function argument (in the source it is the abstract method a subclass
overrides), the `_acquired` flag is read through the `acquired` accessor, and
the backend's error values for the two local protocol violations
(`ValueError("invoked on a locked lock")`, `ValueError("invoked on an
unlocked lock")`) and for `TimeoutError` are passed in. -/

/-- `BaseSadLock.acquire`: raise `ValueError("invoked on a locked lock")`
before issuing any SQL when the lock is already acquired, otherwise delegate
to the backend's `do_acquire` -/
def BaseSadLock.acquire {σ ε S : Type} (acquired : σ → Bool) (lockedErr : ε)
    (doAcquire : σ → Call σ ε Bool S) (st : σ) : Call σ ε Bool S :=
  if acquired st then ⟨Except.error lockedErr, st, []⟩
  else doAcquire st

/-- `BaseSadLock.release`: raise `ValueError("invoked on an unlocked lock")`
before issuing any SQL when the lock is not acquired, otherwise delegate to
the backend's `do_release` -/
def BaseSadLock.release {σ ε S : Type} (acquired : σ → Bool) (unlockedErr : ε)
    (doRelease : σ → Call σ ε Unit S) (st : σ) : Call σ ε Unit S :=
  if acquired st then doRelease st
  else ⟨Except.error unlockedErr, st, []⟩

/-- `BaseSadLock.close`: same as `release` except that no error is raised when
the lock is not acquired -/
def BaseSadLock.close {σ ε S : Type} (acquired : σ → Bool) (unlockedErr : ε)
    (doRelease : σ → Call σ ε Unit S) (st : σ) : Call σ ε Unit S :=
  if acquired st then BaseSadLock.release acquired unlockedErr doRelease st
  else ⟨Except.ok (), st, []⟩

/-- `BaseSadLock.__enter__`: with no contextual timeout call `acquire()` and
ignore its boolean result; with a contextual timeout `t` call
`acquire(timeout=t)` and raise `TimeoutError` when it returns `False`.
`acquireDefault` stands for `do_acquire` with its default arguments and
`acquireTimeout t` for `do_acquire` with `timeout=t`. -/
def BaseSadLock.enter {σ ε S : Type} (acquired : σ → Bool) (lockedErr timeoutErr : ε)
    (contextualTimeout : Option Rat)
    (acquireDefault : σ → Call σ ε Bool S)
    (acquireTimeout : Rat → σ → Call σ ε Bool S) (st : σ) : Call σ ε Unit S :=
  match contextualTimeout with
  | none =>
      let c := BaseSadLock.acquire acquired lockedErr acquireDefault st
      ⟨c.ret.map fun _ => (), c.state, c.events⟩
  | some t =>
      let c := BaseSadLock.acquire acquired lockedErr (acquireTimeout t) st
      match c.ret with
      | Except.error e => ⟨Except.error e, c.state, c.events⟩
      | Except.ok true => ⟨Except.ok (), c.state, c.events⟩
      | Except.ok false => ⟨Except.error timeoutErr, c.state, c.events⟩

/-- `BaseSadLock.__exit__`: exiting the scope calls `close` -/
def BaseSadLock.exit {σ ε S : Type} (acquired : σ → Bool) (unlockedErr : ε)
    (doRelease : σ → Call σ ε Unit S) (st : σ) : Call σ ε Unit S :=
  BaseSadLock.close acquired unlockedErr doRelease st

/-! ## MySQL named lock, `lock/mysql.py` and `statement/mysql.py` -/

/-- parametrized SQL statements of the MySQL backend -/
inductive MysqlStmt where
  | getLock (str : String) (timeout : Rat)
  | releaseLock (str : String)
deriving DecidableEq

/-- exceptions raised by the MySQL backend, each constructor one `raise` site
with the data interpolated into its message -/
inductive MysqlErr where
  | lockedLock
  | unlockedLock
  | timeoutError
  | acquireErrorOccurred (key : String)
  | getLockReturned (key : String) (timeout : Rat) (ret : Int)
  | notEstablished (key : String)
  | neverObtained (key : String)
  | releaseLockReturned (key : String) (ret : Int)
deriving DecidableEq

/-- state of a `MysqlSadLock` (and of `MysqlAsyncSadLock`, whose fields are
identical): the `_acquired` flag of `BaseSadLock` and the already-normalized
string key -/
structure MysqlSadLock where
  acquired : Bool
  key : String
deriving DecidableEq

/-- `MysqlSadLock.acquire`: the MySQL backend overrides `acquire` as a whole.
`reply` is the value `GET_LOCK` returned (`NULL` is `none`). -/
def MysqlSadLock.acquire (st : MysqlSadLock) (block : Bool) (timeout : Option Rat)
    (reply : Option Int) : Call MysqlSadLock MysqlErr Bool MysqlStmt :=
  if st.acquired then ⟨Except.error MysqlErr.lockedLock, st, []⟩
  else
    let t : Rat :=
      if block then
        match timeout with
        | none => -1
        | some v => if v < 0 then 0 else v
      else 0
    let ev : List (Event MysqlStmt) := [Event.exec (MysqlStmt.getLock st.key t)]
    if reply = some 1 then ⟨Except.ok true, { st with acquired := true }, ev⟩
    else if reply = some 0 then ⟨Except.ok false, st, ev⟩
    else
      match reply with
      | none => ⟨Except.error (MysqlErr.acquireErrorOccurred st.key), st, ev⟩
      | some v => ⟨Except.error (MysqlErr.getLockReturned st.key t v), st, ev⟩

/-- `MysqlSadLock.release`: the MySQL backend overrides `release` as a whole.
`reply` is the value `RELEASE_LOCK` returned (`NULL` is `none`). On replies
`1`, `0` and `NULL` the `_acquired` flag is reset before returning or
raising; on any other reply it is left untouched. -/
def MysqlSadLock.release (st : MysqlSadLock) (reply : Option Int) :
    Call MysqlSadLock MysqlErr Unit MysqlStmt :=
  if !st.acquired then ⟨Except.error MysqlErr.unlockedLock, st, []⟩
  else
    let ev : List (Event MysqlStmt) := [Event.exec (MysqlStmt.releaseLock st.key)]
    if reply = some 1 then ⟨Except.ok (), { st with acquired := false }, ev⟩
    else if reply = some 0 then
      ⟨Except.error (MysqlErr.notEstablished st.key), { st with acquired := false }, ev⟩
    else
      match reply with
      | none => ⟨Except.error (MysqlErr.neverObtained st.key), { st with acquired := false }, ev⟩
      | some v => ⟨Except.error (MysqlErr.releaseLockReturned st.key v), st, ev⟩

/-- `MysqlAsyncSadLock.release`: the asynchronous variant, whose body is the
same reply interpretation as the synchronous one -/
def MysqlAsyncSadLock.release (st : MysqlSadLock) (reply : Option Int) :
    Call MysqlSadLock MysqlErr Unit MysqlStmt :=
  if !st.acquired then ⟨Except.error MysqlErr.unlockedLock, st, []⟩
  else
    let ev : List (Event MysqlStmt) := [Event.exec (MysqlStmt.releaseLock st.key)]
    if reply = some 1 then ⟨Except.ok (), { st with acquired := false }, ev⟩
    else if reply = some 0 then
      ⟨Except.error (MysqlErr.notEstablished st.key), { st with acquired := false }, ev⟩
    else
      match reply with
      | none => ⟨Except.error (MysqlErr.neverObtained st.key), { st with acquired := false }, ev⟩
      | some v => ⟨Except.error (MysqlErr.releaseLockReturned st.key v), st, ev⟩

/-! ## PostgreSQL advisory lock, `lock/postgresql.py` and `statement/postgresql.py` -/

/-- parametrized SQL statements of the PostgreSQL backend, one constructor per
statement constant of `statement/postgresql.py` with the key bound by
`.params(key=...)` in the mixin constructor -/
inductive PgStmt where
  | lock (key : Int)
  | lockShared (key : Int)
  | lockXact (key : Int)
  | lockXactShared (key : Int)
  | tryLock (key : Int)
  | tryLockShared (key : Int)
  | tryLockXact (key : Int)
  | tryLockXactShared (key : Int)
  | unlock (key : Int)
  | unlockShared (key : Int)
deriving DecidableEq

/-- exceptions raised by the PostgreSQL backend -/
inductive PgErr where
  | lockedLock
  | unlockedLock
  | timeoutError
  | intTooBig
  | intTooSmall
  | intervalTooSmall
  | advisoryNotHeld (key : Int)
deriving DecidableEq

/-- `PostgresqlSadLockMixin.ensure_int64`: range-check an integer key into
signed INT64, raising `OverflowError("int too big")` above `2^63-1` and
`OverflowError("int too small")` below `-2^63`; an in-range integer is
returned unchanged, never wrapped -/
def PostgresqlSadLockMixin.ensure_int64 (i : Int) : Except PgErr Int :=
  if i > 0x7FFFFFFFFFFFFFFF then Except.error PgErr.intTooBig
  else if i < -0x8000000000000000 then Except.error PgErr.intTooSmall
  else Except.ok i

/-- configuration a `PostgresqlSadLockMixin` holds after construction -/
structure PostgresqlSadLockMixin where
  actualKey : Int
  shared : Bool
  xact : Bool
deriving DecidableEq

/-- `PostgresqlSadLockMixin.__init__` for an integer key: the default
converter returns an `int` unchanged, then `ensure_int64` range-checks it;
`shared` and `xact` are stored -/
def PostgresqlSadLockMixin.init (key : Int) (shared xact : Bool) :
    Except PgErr PostgresqlSadLockMixin :=
  (PostgresqlSadLockMixin.ensure_int64 key).map fun k => ⟨k, shared, xact⟩

/-- the `_stmt_lock` statement selected by `PostgresqlSadLockMixin.__init__` -/
def PostgresqlSadLockMixin.stmtLock (m : PostgresqlSadLockMixin) : PgStmt :=
  if !m.shared && !m.xact then PgStmt.lock m.actualKey
  else if m.shared && !m.xact then PgStmt.lockShared m.actualKey
  else if !m.shared && m.xact then PgStmt.lockXact m.actualKey
  else PgStmt.lockXactShared m.actualKey

/-- the `_stmt_try_lock` statement selected by `PostgresqlSadLockMixin.__init__` -/
def PostgresqlSadLockMixin.stmtTryLock (m : PostgresqlSadLockMixin) : PgStmt :=
  if !m.shared && !m.xact then PgStmt.tryLock m.actualKey
  else if m.shared && !m.xact then PgStmt.tryLockShared m.actualKey
  else if !m.shared && m.xact then PgStmt.tryLockXact m.actualKey
  else PgStmt.tryLockXactShared m.actualKey

/-- the `_stmt_unlock` statement selected by `PostgresqlSadLockMixin.__init__`;
it is initialized to `None` and only the two session-level (non-`xact`)
branches assign a statement, so both transaction-level variants keep `None` -/
def PostgresqlSadLockMixin.stmtUnlock (m : PostgresqlSadLockMixin) : Option PgStmt :=
  if !m.shared && !m.xact then some (PgStmt.unlock m.actualKey)
  else if m.shared && !m.xact then some (PgStmt.unlockShared m.actualKey)
  else none

/-- Modelled from the spec: the default poll period of the timeout-emulation
loop is one time-unit ("suspend the caller for `interval` (a configurable
poll period, default 1 time-unit ...)"). `lock/postgresql.py` imports
`SLEEP_INTERVAL_DEFAULT` from `statement/postgresql.py`, but the copy of that
module in this snapshot predates the constant. -/
def SLEEP_INTERVAL_DEFAULT : Rat := 1

/-- Modelled from the spec: the minimum poll-interval floor ("with a minimum
floor to bound SQL-execution and CPU overhead"; "`interval` below the
configured floor is rejected as `InvalidInterval`"). `lock/postgresql.py`
imports `SLEEP_INTERVAL_MIN` from `statement/postgresql.py`, but the copy of
that module in this snapshot predates the constant; a representative positive
floor below the default is used. -/
def SLEEP_INTERVAL_MIN : Rat := 1 / 10

/-- state of a `PostgresqlSadLock`: the mixin configuration and the
`_acquired` flag of `BaseSadLock` -/
structure PostgresqlSadLock where
  mixin : PostgresqlSadLockMixin
  acquired : Bool
deriving DecidableEq

/-- the `while True` polling loop inside `PostgresqlSadLock.do_acquire`:
each element of `polls` is one iteration's input, the value the try-lock
statement returned together with the value of `time()` at the expiry check
of that iteration. The result is `none` when `polls` is too short to reach a
grant or an expiry (the source loop would keep polling). -/
def PostgresqlSadLock.pollLoop (tryStmt : PgStmt) (timeout tsBegin interval : Rat) :
    List (Bool × Rat) → Option (Bool × List (Event PgStmt))
  | [] => none
  | (retVal, now) :: rest =>
    if retVal then some (true, [Event.exec tryStmt])
    else if now - tsBegin > timeout then some (false, [Event.exec tryStmt])
    else
      match PostgresqlSadLock.pollLoop tryStmt timeout tsBegin interval rest with
      | none => none
      | some (b, evs) => some (b, Event.exec tryStmt :: Event.sleep interval :: evs)

/-- `PostgresqlSadLock.do_acquire`. `tsBegin` is the value `time()` returned
when the start time was recorded, `polls` the successive inputs of the
polling loop; in the non-blocking branch the single try-lock reply is the
first element of `polls`. The `_acquired` flag is never assigned by this
method, so the state component of the result always equals `st`. -/
def PostgresqlSadLock.do_acquire (st : PostgresqlSadLock) (block : Bool)
    (timeout interval : Option Rat) (tsBegin : Rat) (polls : List (Bool × Rat)) :
    Option (Call PostgresqlSadLock PgErr Bool PgStmt) :=
  if block then
    match timeout with
    | none => some ⟨Except.ok true, st, [Event.exec st.mixin.stmtLock]⟩
    | some t0 =>
      let t := if t0 < 0 then 0 else t0
      let itv := match interval with
        | none => SLEEP_INTERVAL_DEFAULT
        | some v => v
      if itv < SLEEP_INTERVAL_MIN then some ⟨Except.error PgErr.intervalTooSmall, st, []⟩
      else
        match PostgresqlSadLock.pollLoop st.mixin.stmtTryLock t tsBegin itv polls with
        | none => none
        | some (b, evs) => some ⟨Except.ok b, st, evs⟩
  else
    match polls with
    | [] => none
    | (retVal, _) :: _ => some ⟨Except.ok retVal, st, [Event.exec st.mixin.stmtTryLock]⟩

/-- `PostgresqlSadLock.do_release`. `reply` is the boolean the unlock
statement returned; for a transaction-level lock `_stmt_unlock` is `None`,
a `RuntimeWarning` is emitted and the method returns without executing any
statement. The `_acquired` flag is never assigned by this method. -/
def PostgresqlSadLock.do_release (st : PostgresqlSadLock) (reply : Bool) :
    Call PostgresqlSadLock PgErr Unit PgStmt :=
  match st.mixin.stmtUnlock with
  | none => ⟨Except.ok (), st, [Event.warn]⟩
  | some u =>
    if reply then ⟨Except.ok (), st, [Event.exec u]⟩
    else ⟨Except.error (PgErr.advisoryNotHeld st.mixin.actualKey), st, [Event.exec u]⟩

/-- `BaseSadLock.acquire` specialized to `PostgresqlSadLock.do_acquire`
(the lifting into `Option` only threads the insufficient-trace case) -/
def PostgresqlSadLock.acquire (st : PostgresqlSadLock) (block : Bool)
    (timeout interval : Option Rat) (tsBegin : Rat) (polls : List (Bool × Rat)) :
    Option (Call PostgresqlSadLock PgErr Bool PgStmt) :=
  if st.acquired then some ⟨Except.error PgErr.lockedLock, st, []⟩
  else PostgresqlSadLock.do_acquire st block timeout interval tsBegin polls

/-- `BaseSadLock.release` specialized to `PostgresqlSadLock.do_release` -/
def PostgresqlSadLock.release (st : PostgresqlSadLock) (reply : Bool) :
    Call PostgresqlSadLock PgErr Unit PgStmt :=
  BaseSadLock.release (fun s => s.acquired) PgErr.unlockedLock
    (fun s => PostgresqlSadLock.do_release s reply) st

/-! ## MSSQL application lock, `lock/mssql.py` and `statement/mssql.py` -/

/-- the lock mode baked into the selected `sp_getapplock` statement -/
inductive MssqlMode where
  | shared
  | update
  | exclusive
deriving DecidableEq

/-- parametrized SQL statements of the MSSQL backend -/
inductive MssqlStmt where
  | getAppLock (resource : String) (mode : MssqlMode) (timeoutMs : Int)
  | releaseAppLock (resource : String)
deriving DecidableEq

/-- exceptions raised by the MSSQL backend -/
inductive MssqlErr where
  | lockedLock
  | unlockedLock
  | timeoutError
  | paramValidationFailed (resource : String)
  | getAppLockReturned (resource : String) (timeoutMs : Int) (ret : Int)
  | releaseAppLockReturned (resource : String) (ret : Int)
deriving DecidableEq

/-- configuration a `MssqlSadLockMixin` holds after construction: the
normalized resource string and the mode flags, where `update` takes
precedence (`_update = bool(update)`, `_shared = bool(shared) and not
bool(update)`) -/
structure MssqlSadLockMixin where
  actualKey : String
  update : Bool
  shared : Bool
deriving DecidableEq

/-- the mode-flag computation of `MssqlSadLockMixin.__init__` for an
already-validated string key -/
def MssqlSadLockMixin.init (key : String) (shared update : Bool) : MssqlSadLockMixin :=
  ⟨key, update, shared && !update⟩

/-- the lock mode of the `_stmt_lock` statement selected in
`MssqlSadLockMixin.__init__` -/
def MssqlSadLockMixin.lockMode (m : MssqlSadLockMixin) : MssqlMode :=
  if m.update then MssqlMode.update
  else if m.shared then MssqlMode.shared
  else MssqlMode.exclusive

/-- state of a `MssqlSadLock`: the mixin configuration and the `_acquired`
flag of `BaseSadLock` -/
structure MssqlSadLock where
  mixin : MssqlSadLockMixin
  acquired : Bool
deriving DecidableEq

/-- `MssqlSadLock.do_acquire`. `reply` is the integer `sp_getapplock`
returned; `int(timeout * 1000)` truncates toward zero, which on the
non-negative values reaching it is the floor. The `_acquired` flag is never
assigned by this method, so the state component of the result always equals
`st`. -/
def MssqlSadLock.do_acquire (st : MssqlSadLock) (block : Bool) (timeout : Option Rat)
    (reply : Int) : Call MssqlSadLock MssqlErr Bool MssqlStmt :=
  let timeoutMs : Int :=
    if block then
      match timeout with
      | none => -1
      | some v => if v < 0 then 0 else Rat.floor (v * 1000)
    else 0
  let ev : List (Event MssqlStmt) :=
    [Event.exec (MssqlStmt.getAppLock st.mixin.actualKey st.mixin.lockMode timeoutMs)]
  if reply ≥ 0 then ⟨Except.ok true, st, ev⟩
  else if reply = -1 then ⟨Except.ok false, st, ev⟩
  else if reply = -3 then ⟨Except.error (MssqlErr.paramValidationFailed st.mixin.actualKey), st, ev⟩
  else ⟨Except.error (MssqlErr.getAppLockReturned st.mixin.actualKey timeoutMs reply), st, ev⟩

/-- `MssqlSadLock.do_release`. `reply` is the integer `sp_releaseapplock`
returned. -/
def MssqlSadLock.do_release (st : MssqlSadLock) (reply : Int) :
    Call MssqlSadLock MssqlErr Unit MssqlStmt :=
  let ev : List (Event MssqlStmt) := [Event.exec (MssqlStmt.releaseAppLock st.mixin.actualKey)]
  if reply < 0 then ⟨Except.error (MssqlErr.releaseAppLockReturned st.mixin.actualKey reply), st, ev⟩
  else ⟨Except.ok (), st, ev⟩

/-- `BaseSadLock.acquire` specialized to `MssqlSadLock.do_acquire` -/
def MssqlSadLock.acquire (st : MssqlSadLock) (block : Bool) (timeout : Option Rat)
    (reply : Int) : Call MssqlSadLock MssqlErr Bool MssqlStmt :=
  BaseSadLock.acquire (fun s => s.acquired) MssqlErr.lockedLock
    (fun s => MssqlSadLock.do_acquire s block timeout reply) st

/-- `BaseSadLock.release` specialized to `MssqlSadLock.do_release` -/
def MssqlSadLock.release (st : MssqlSadLock) (reply : Int) :
    Call MssqlSadLock MssqlErr Unit MssqlStmt :=
  BaseSadLock.release (fun s => s.acquired) MssqlErr.unlockedLock
    (fun s => MssqlSadLock.do_release s reply) st

/-! ## Oracle user lock, `lock/oracle.py` and `statement/oracle.py` -/

/-- `ORACLE_LOCK_ID_MIN` of `lock/oracle.py` -/
def ORACLE_LOCK_ID_MIN : Int := 0

/-- `ORACLE_LOCK_ID_MAX` of `lock/oracle.py` -/
def ORACLE_LOCK_ID_MAX : Int := 1073741823

/-- `MAXWAIT` of `statement/oracle.py` -/
def MAXWAIT : Int := 32767

/-- `OracleSadLockMixin.ensure_valid_id`: an integer outside
`[0, 1073741823]` is folded into range via modulo (Python `%` on a positive
modulus, which `Int.emod` matches); an in-range integer is returned
unchanged and no error is ever raised for an integer input -/
def OracleSadLockMixin.ensure_valid_id (i : Int) : Int :=
  if i < ORACLE_LOCK_ID_MIN ∨ i > ORACLE_LOCK_ID_MAX then i % (ORACLE_LOCK_ID_MAX + 1)
  else i

/-- parametrized SQL statements of the Oracle backend -/
inductive OracleStmt where
  | request (lockId : Int) (lockmode : Int) (timeout : Int) (releaseOnCommit : Bool)
  | release (lockId : Int)
deriving DecidableEq

/-- exceptions raised by the Oracle backend -/
inductive OracleErr where
  | lockedLock
  | unlockedLock
  | timeoutError
  | deadlockDetected (key : Int)
  | parameterError (key : Int)
  | illegalLockId (actualKey : Int)
  | requestUnexpected (key : Int) (ret : Int)
deriving DecidableEq

/-- configuration an `OracleSadLockMixin` holds after construction -/
structure OracleSadLockMixin where
  actualKey : Int
  lockModeInt : Int
  releaseOnCommit : Bool
deriving DecidableEq

/-- state of an `OracleSadLock` (and of `OracleAsyncSadLock`, whose fields
are identical): the mixin configuration and the `_acquired` flag -/
structure OracleSadLock where
  mixin : OracleSadLockMixin
  acquired : Bool
deriving DecidableEq

/-- `OracleSadLock.do_acquire`. `reply` is the integer `DBMS_LOCK.REQUEST`
returned: 0 success, 1 timeout, 2 deadlock, 3 parameter error, 4 already own
lock (treated as success), 5 illegal lock ID. `int(timeout)` truncates
toward zero, which on the non-negative values reaching it is the floor. -/
def OracleSadLock.do_acquire (st : OracleSadLock) (block : Bool) (timeout : Option Rat)
    (reply : Int) : Call OracleSadLock OracleErr Bool OracleStmt :=
  let timeoutSec : Int :=
    if block then
      match timeout with
      | none => MAXWAIT
      | some v =>
        if v < 0 then 0
        else if v > (MAXWAIT : Rat) then MAXWAIT
        else Rat.floor v
    else 0
  let ev : List (Event OracleStmt) :=
    [Event.exec (OracleStmt.request st.mixin.actualKey st.mixin.lockModeInt timeoutSec
      st.mixin.releaseOnCommit)]
  if reply = 0 then ⟨Except.ok true, st, ev⟩
  else if reply = 1 then ⟨Except.ok false, st, ev⟩
  else if reply = 2 then ⟨Except.error (OracleErr.deadlockDetected st.mixin.actualKey), st, ev⟩
  else if reply = 3 then ⟨Except.error (OracleErr.parameterError st.mixin.actualKey), st, ev⟩
  else if reply = 4 then ⟨Except.ok true, st, ev⟩
  else if reply = 5 then ⟨Except.error (OracleErr.illegalLockId st.mixin.actualKey), st, ev⟩
  else ⟨Except.error (OracleErr.requestUnexpected st.mixin.actualKey reply), st, ev⟩

/-- `OracleAsyncSadLock.do_acquire`: the asynchronous variant, whose body is
the same timeout conversion and reply interpretation as the synchronous one -/
def OracleAsyncSadLock.do_acquire (st : OracleSadLock) (block : Bool) (timeout : Option Rat)
    (reply : Int) : Call OracleSadLock OracleErr Bool OracleStmt :=
  let timeoutSec : Int :=
    if block then
      match timeout with
      | none => MAXWAIT
      | some v =>
        if v < 0 then 0
        else if v > (MAXWAIT : Rat) then MAXWAIT
        else Rat.floor v
    else 0
  let ev : List (Event OracleStmt) :=
    [Event.exec (OracleStmt.request st.mixin.actualKey st.mixin.lockModeInt timeoutSec
      st.mixin.releaseOnCommit)]
  if reply = 0 then ⟨Except.ok true, st, ev⟩
  else if reply = 1 then ⟨Except.ok false, st, ev⟩
  else if reply = 2 then ⟨Except.error (OracleErr.deadlockDetected st.mixin.actualKey), st, ev⟩
  else if reply = 3 then ⟨Except.error (OracleErr.parameterError st.mixin.actualKey), st, ev⟩
  else if reply = 4 then ⟨Except.ok true, st, ev⟩
  else if reply = 5 then ⟨Except.error (OracleErr.illegalLockId st.mixin.actualKey), st, ev⟩
  else ⟨Except.error (OracleErr.requestUnexpected st.mixin.actualKey reply), st, ev⟩

/-! ## Claim theorems -/

/-- C1: the claim that on a success reply the lock's state becomes `Locked`
fails on the code: a successful acquire of the PostgreSQL backend
(non-blocking, try-lock granted) and of the MSSQL backend (`sp_getapplock`
reply `0`, acquiring with a 5-second timeout) returns `True` but leaves the
lock state `Unlocked` — `do_acquire` never assigns `_acquired`, the state
component of the result equals the unlocked input state. -/
theorem claim_C1_success_reply_leaves_state_unlocked :
    (PostgresqlSadLock.acquire ⟨⟨1, false, false⟩, false⟩ false none none 0 [(true, 0)]
      = some ⟨Except.ok true, ⟨⟨1, false, false⟩, false⟩, [Event.exec (PgStmt.tryLock 1)]⟩)
    ∧ ((⟨⟨1, false, false⟩, false⟩ : PostgresqlSadLock).acquired = false)
    ∧ (MssqlSadLock.acquire ⟨⟨"k", false, false⟩, false⟩ true (some 5) 0
      = ⟨Except.ok true, ⟨⟨"k", false, false⟩, false⟩,
          [Event.exec (MssqlStmt.getAppLock "k" MssqlMode.exclusive 5000)]⟩)
    ∧ ((⟨⟨"k", false, false⟩, false⟩ : MssqlSadLock).acquired = false) := by
  refine ⟨by decide, rfl, ?_, rfl⟩
  simp [MssqlSadLock.acquire, BaseSadLock.acquire, MssqlSadLock.do_acquire,
    MssqlSadLockMixin.lockMode]
  norm_num [Rat.floor_def']

/-- C2: the claim fails on the PostgreSQL backend. For the MySQL backend the
round trip behaves as claimed: acquire (`GET_LOCK` reply `1`) sets the state
to `Locked`, release (`RELEASE_LOCK` reply `1`) returns it to `Unlocked`, and
a second release raises `ValueError("invoked on an unlocked lock")`. For the
PostgreSQL backend a successful acquire (try-lock granted) leaves the state
`Unlocked`, so already the FIRST release raises that error instead of
returning the lock to `Unlocked` normally. -/
theorem claim_C2_acquire_release_roundtrip :
    ((MysqlSadLock.acquire ⟨false, "k"⟩ true none (some 1)).ret = Except.ok true
      ∧ (MysqlSadLock.acquire ⟨false, "k"⟩ true none (some 1)).state = ⟨true, "k"⟩
      ∧ (MysqlSadLock.release ⟨true, "k"⟩ (some 1)).ret = Except.ok ()
      ∧ (MysqlSadLock.release ⟨true, "k"⟩ (some 1)).state = ⟨false, "k"⟩
      ∧ (MysqlSadLock.release ⟨false, "k"⟩ (some 1)).ret = Except.error MysqlErr.unlockedLock)
    ∧ ((PostgresqlSadLock.acquire ⟨⟨1, false, false⟩, false⟩ false none none 0 [(true, 0)]
          = some ⟨Except.ok true, ⟨⟨1, false, false⟩, false⟩, [Event.exec (PgStmt.tryLock 1)]⟩)
      ∧ (PostgresqlSadLock.release ⟨⟨1, false, false⟩, false⟩ true).ret
          = Except.error PgErr.unlockedLock) := by
  exact ⟨⟨by decide, by decide, by decide, by decide, by decide⟩, by decide, by decide⟩

/-- C4: `ensure_int64` rejects every integer above `2^63-1` with
`OverflowError("int too big")` and every integer below `-2^63` with
`OverflowError("int too small")` (never wrapping), and returns every in-range
integer unchanged; `ensure_valid_id` folds every integer outside
`[0, 1073741823]` into that range via modulo without raising, and returns
every in-range integer unchanged. -/
theorem claim_C4_key_range_normalization :
    (∀ i : Int, i > 0x7FFFFFFFFFFFFFFF →
        PostgresqlSadLockMixin.ensure_int64 i = Except.error PgErr.intTooBig)
    ∧ (∀ i : Int, i < -0x8000000000000000 →
        PostgresqlSadLockMixin.ensure_int64 i = Except.error PgErr.intTooSmall)
    ∧ (∀ i : Int, -0x8000000000000000 ≤ i → i ≤ 0x7FFFFFFFFFFFFFFF →
        PostgresqlSadLockMixin.ensure_int64 i = Except.ok i)
    ∧ (∀ i : Int, (i < 0 ∨ i > 1073741823) →
        OracleSadLockMixin.ensure_valid_id i = i % 1073741824
        ∧ 0 ≤ OracleSadLockMixin.ensure_valid_id i
        ∧ OracleSadLockMixin.ensure_valid_id i ≤ 1073741823)
    ∧ (∀ i : Int, 0 ≤ i → i ≤ 1073741823 →
        OracleSadLockMixin.ensure_valid_id i = i) := by
  refine ⟨?_, ?_, ?_, ?_, ?_⟩
  · intro i h
    simp only [PostgresqlSadLockMixin.ensure_int64]
    rw [if_pos h]
  · intro i h
    simp only [PostgresqlSadLockMixin.ensure_int64]
    rw [if_neg (by omega), if_pos h]
  · intro i h1 h2
    simp only [PostgresqlSadLockMixin.ensure_int64]
    rw [if_neg (by omega), if_neg (by omega)]
  · intro i h
    have hmod : OracleSadLockMixin.ensure_valid_id i = i % 1073741824 := by
      simp only [OracleSadLockMixin.ensure_valid_id, ORACLE_LOCK_ID_MIN, ORACLE_LOCK_ID_MAX]
      rw [if_pos (by omega)]
      norm_num
    refine ⟨hmod, ?_, ?_⟩
    · rw [hmod]; exact Int.emod_nonneg i (by norm_num)
    · rw [hmod]
      have := Int.emod_lt_of_pos i (show (0 : Int) < 1073741824 by norm_num)
      omega
  · intro i h1 h2
    simp only [OracleSadLockMixin.ensure_valid_id, ORACLE_LOCK_ID_MIN, ORACLE_LOCK_ID_MAX]
    rw [if_neg (by omega)]

/-- C4 witness: the range boundaries evaluated concretely. -/
theorem claim_C4_key_range_normalization_witness :
    PostgresqlSadLockMixin.ensure_int64 9223372036854775808 = Except.error PgErr.intTooBig
    ∧ PostgresqlSadLockMixin.ensure_int64 (-9223372036854775809) = Except.error PgErr.intTooSmall
    ∧ PostgresqlSadLockMixin.ensure_int64 9223372036854775807 = Except.ok 9223372036854775807
    ∧ OracleSadLockMixin.ensure_valid_id (-7) = -7 % 1073741824
    ∧ OracleSadLockMixin.ensure_valid_id 5 = 5 :=
  ⟨claim_C4_key_range_normalization.1 9223372036854775808 (by norm_num),
   claim_C4_key_range_normalization.2.1 (-9223372036854775809) (by norm_num),
   claim_C4_key_range_normalization.2.2.1 9223372036854775807 (by norm_num) (by norm_num),
   (claim_C4_key_range_normalization.2.2.2.1 (-7) (Or.inl (by norm_num))).1,
   claim_C4_key_range_normalization.2.2.2.2 5 (by norm_num) (by norm_num)⟩

/-- C9: when the MySQL backend's `release` is invoked on a held lock and
`RELEASE_LOCK` replies `0` (not established by this session) or `NULL`
(never existed), the `_acquired` flag is set back to `False` and the error is
raised: the failed release still mutates the state, in both the synchronous
and the asynchronous variant. -/
theorem claim_C9_mysql_failed_release_resets_state :
    (∀ st : MysqlSadLock, st.acquired = true →
        MysqlSadLock.release st (some 0)
          = ⟨Except.error (MysqlErr.notEstablished st.key), { st with acquired := false },
              [Event.exec (MysqlStmt.releaseLock st.key)]⟩
        ∧ MysqlSadLock.release st none
          = ⟨Except.error (MysqlErr.neverObtained st.key), { st with acquired := false },
              [Event.exec (MysqlStmt.releaseLock st.key)]⟩)
    ∧ (∀ st : MysqlSadLock, st.acquired = true →
        MysqlAsyncSadLock.release st (some 0)
          = ⟨Except.error (MysqlErr.notEstablished st.key), { st with acquired := false },
              [Event.exec (MysqlStmt.releaseLock st.key)]⟩
        ∧ MysqlAsyncSadLock.release st none
          = ⟨Except.error (MysqlErr.neverObtained st.key), { st with acquired := false },
              [Event.exec (MysqlStmt.releaseLock st.key)]⟩) := by
  constructor
  · intro st h
    constructor <;> simp [MysqlSadLock.release, h]
  · intro st h
    constructor <;> simp [MysqlAsyncSadLock.release, h]

/-- C9 witness: a held lock with key `"k"` evaluated on both error replies. -/
theorem claim_C9_mysql_failed_release_resets_state_witness :
    (MysqlSadLock.release ⟨true, "k"⟩ (some 0)
        = ⟨Except.error (MysqlErr.notEstablished "k"), ⟨false, "k"⟩,
            [Event.exec (MysqlStmt.releaseLock "k")]⟩
      ∧ MysqlSadLock.release ⟨true, "k"⟩ none
        = ⟨Except.error (MysqlErr.neverObtained "k"), ⟨false, "k"⟩,
            [Event.exec (MysqlStmt.releaseLock "k")]⟩)
    ∧ (MysqlAsyncSadLock.release ⟨true, "k"⟩ (some 0)
        = ⟨Except.error (MysqlErr.notEstablished "k"), ⟨false, "k"⟩,
            [Event.exec (MysqlStmt.releaseLock "k")]⟩
      ∧ MysqlAsyncSadLock.release ⟨true, "k"⟩ none
        = ⟨Except.error (MysqlErr.neverObtained "k"), ⟨false, "k"⟩,
            [Event.exec (MysqlStmt.releaseLock "k")]⟩) :=
  ⟨claim_C9_mysql_failed_release_resets_state.1 ⟨true, "k"⟩ rfl,
   claim_C9_mysql_failed_release_resets_state.2 ⟨true, "k"⟩ rfl⟩

/-- C10: an acquire of the Oracle backend whose `DBMS_LOCK.REQUEST` reply is
`4` ("already own lock") returns `True` — neither an error nor `False` — in
both the synchronous and the asynchronous variant, for every lock state and
every `block`/`timeout` combination. -/
theorem claim_C10_oracle_reply4_success :
    ∀ (st : OracleSadLock) (block : Bool) (timeout : Option Rat),
      (OracleSadLock.do_acquire st block timeout 4).ret = Except.ok true
      ∧ (OracleAsyncSadLock.do_acquire st block timeout 4).ret = Except.ok true := by
  intro st block timeout
  constructor
  · simp [OracleSadLock.do_acquire]
  · simp [OracleAsyncSadLock.do_acquire]

/-- C3: `acquire` on a lock whose state is `Locked` raises
`ValueError("invoked on a locked lock")` and `release` on a lock whose state
is `Unlocked` raises `ValueError("invoked on an unlocked lock")`, in both
cases locally, with an empty effect list — the connection receives zero
statements. Stated for the generic `BaseSadLock` methods every `do_`-style
backend inherits, and for the MySQL backend, which overrides both methods
with the same leading check. -/
theorem claim_C3_protocol_violations_raise_before_sql :
    (∀ (σ ε S : Type) (acq : σ → Bool) (e : ε) (dA : σ → Call σ ε Bool S) (st : σ),
        acq st = true → BaseSadLock.acquire acq e dA st = ⟨Except.error e, st, []⟩)
    ∧ (∀ (σ ε S : Type) (acq : σ → Bool) (e : ε) (dR : σ → Call σ ε Unit S) (st : σ),
        acq st = false → BaseSadLock.release acq e dR st = ⟨Except.error e, st, []⟩)
    ∧ (∀ (st : MysqlSadLock) (block : Bool) (timeout : Option Rat) (reply : Option Int),
        st.acquired = true →
        MysqlSadLock.acquire st block timeout reply
          = ⟨Except.error MysqlErr.lockedLock, st, []⟩)
    ∧ (∀ (st : MysqlSadLock) (reply : Option Int),
        st.acquired = false →
        MysqlSadLock.release st reply = ⟨Except.error MysqlErr.unlockedLock, st, []⟩) := by
  refine ⟨?_, ?_, ?_, ?_⟩
  · intro σ ε S acq e dA st h
    simp [BaseSadLock.acquire, h]
  · intro σ ε S acq e dR st h
    simp [BaseSadLock.release, h]
  · intro st block timeout reply h
    simp [MysqlSadLock.acquire, h]
  · intro st reply h
    simp [MysqlSadLock.release, h]

/-- C3 witness: both violations evaluated at concrete locks, with the base
methods instantiated on a one-field state. -/
theorem claim_C3_protocol_violations_raise_before_sql_witness :
    BaseSadLock.acquire (fun b : Bool => b) 0
        (fun b => ⟨Except.ok true, b, ([] : List (Event Unit))⟩) true
      = ⟨Except.error 0, true, []⟩
    ∧ BaseSadLock.release (fun b : Bool => b) 0
        (fun b => ⟨Except.ok (), b, ([] : List (Event Unit))⟩) false
      = ⟨Except.error 0, false, []⟩
    ∧ MysqlSadLock.acquire ⟨true, "k"⟩ true none (some 1)
      = ⟨Except.error MysqlErr.lockedLock, ⟨true, "k"⟩, []⟩
    ∧ MysqlSadLock.release ⟨false, "k"⟩ (some 1)
      = ⟨Except.error MysqlErr.unlockedLock, ⟨false, "k"⟩, []⟩ :=
  ⟨claim_C3_protocol_violations_raise_before_sql.1 Bool Nat Unit (fun b => b) 0 _ true rfl,
   claim_C3_protocol_violations_raise_before_sql.2.1 Bool Nat Unit (fun b => b) 0 _ false rfl,
   claim_C3_protocol_violations_raise_before_sql.2.2.1 ⟨true, "k"⟩ true none (some 1) rfl,
   claim_C3_protocol_violations_raise_before_sql.2.2.2 ⟨false, "k"⟩ (some 1) rfl⟩

/-- C5: with `block = False` the MySQL backend issues `GET_LOCK(key, 0)`
exactly once (the try primitive, no sleep), with a result independent of the
`timeout` argument, and the PostgreSQL backend issues its try-lock statement
exactly once, independent of `timeout` and `interval`; and with
`block = True` a negative `timeout` behaves exactly as `timeout = 0` in both
backends. -/
theorem claim_C5_nonblocking_and_negative_timeout :
    (∀ (st : MysqlSadLock) (timeout : Option Rat) (reply : Option Int),
        st.acquired = false →
        (MysqlSadLock.acquire st false timeout reply).events
          = [Event.exec (MysqlStmt.getLock st.key 0)])
    ∧ (∀ (st : MysqlSadLock) (timeout : Option Rat) (reply : Option Int),
        MysqlSadLock.acquire st false timeout reply
          = MysqlSadLock.acquire st false none reply)
    ∧ (∀ (st : PostgresqlSadLock) (timeout interval : Option Rat) (tsBegin : Rat)
        (reply : Bool) (now : Rat) (rest : List (Bool × Rat)),
        st.acquired = false →
        PostgresqlSadLock.acquire st false timeout interval tsBegin ((reply, now) :: rest)
          = some ⟨Except.ok reply, st, [Event.exec st.mixin.stmtTryLock]⟩)
    ∧ (∀ (st : MysqlSadLock) (t : Rat) (reply : Option Int), t < 0 →
        MysqlSadLock.acquire st true (some t) reply
          = MysqlSadLock.acquire st true (some 0) reply)
    ∧ (∀ (st : PostgresqlSadLock) (t : Rat) (interval : Option Rat) (tsBegin : Rat)
        (polls : List (Bool × Rat)), t < 0 →
        PostgresqlSadLock.do_acquire st true (some t) interval tsBegin polls
          = PostgresqlSadLock.do_acquire st true (some 0) interval tsBegin polls) := by
  refine ⟨?_, ?_, ?_, ?_, ?_⟩
  · intro st timeout reply h
    simp only [MysqlSadLock.acquire, h, Bool.false_eq_true, if_false]
    rcases reply with _ | v
    · rfl
    · by_cases h1 : v = 1
      · subst h1; rfl
      · by_cases h0 : v = 0
        · subst h0; rfl
        · simp [h1, h0]
  · intro st timeout reply
    rfl
  · intro st timeout interval tsBegin reply now rest h
    simp [PostgresqlSadLock.acquire, PostgresqlSadLock.do_acquire, h]
  · intro st t reply h
    simp [MysqlSadLock.acquire, h, lt_irrefl (0 : Rat)]
  · intro st t interval tsBegin polls h
    simp [PostgresqlSadLock.do_acquire, h, lt_irrefl (0 : Rat)]

/-- C5 witness: a non-blocking acquire on each backend and a negative-timeout
acquire, evaluated concretely. -/
theorem claim_C5_nonblocking_and_negative_timeout_witness :
    (MysqlSadLock.acquire ⟨false, "k"⟩ false (some 9) (some 1)).events
      = [Event.exec (MysqlStmt.getLock "k" 0)]
    ∧ PostgresqlSadLock.acquire ⟨⟨1, false, false⟩, false⟩ false (some 9) (some 9) 0 [(false, 0)]
      = some ⟨Except.ok false, ⟨⟨1, false, false⟩, false⟩, [Event.exec (PgStmt.tryLock 1)]⟩
    ∧ MysqlSadLock.acquire ⟨false, "k"⟩ true (some (-3)) (some 1)
      = MysqlSadLock.acquire ⟨false, "k"⟩ true (some 0) (some 1)
    ∧ PostgresqlSadLock.do_acquire ⟨⟨1, false, false⟩, false⟩ true (some (-3)) none 0 [(true, 0)]
      = PostgresqlSadLock.do_acquire ⟨⟨1, false, false⟩, false⟩ true (some 0) none 0 [(true, 0)] :=
  ⟨claim_C5_nonblocking_and_negative_timeout.1 ⟨false, "k"⟩ (some 9) (some 1) rfl,
   claim_C5_nonblocking_and_negative_timeout.2.2.1 ⟨⟨1, false, false⟩, false⟩ (some 9) (some 9)
     0 false 0 [] rfl,
   claim_C5_nonblocking_and_negative_timeout.2.2.2.1 ⟨false, "k"⟩ (-3) (some 1) (by norm_num),
   claim_C5_nonblocking_and_negative_timeout.2.2.2.2 ⟨⟨1, false, false⟩, false⟩ (-3) none 0
     [(true, 0)] (by norm_num)⟩

/-- C7: a transaction-level (`xact`) PostgreSQL advisory lock has no unlock
statement (`_stmt_unlock` stays `None`), and `release` on such a lock while
it is held executes no statement on the connection, emits a warning and
returns normally. -/
theorem claim_C7_xact_release_noop_warning :
    (∀ m : PostgresqlSadLockMixin, m.xact = true → m.stmtUnlock = none)
    ∧ (∀ (st : PostgresqlSadLock) (reply : Bool), st.mixin.xact = true → st.acquired = true →
        PostgresqlSadLock.release st reply = ⟨Except.ok (), st, [Event.warn]⟩) := by
  constructor
  · intro m h
    simp [PostgresqlSadLockMixin.stmtUnlock, h]
  · intro st reply hx ha
    have hu : st.mixin.stmtUnlock = none := by
      simp [PostgresqlSadLockMixin.stmtUnlock, hx]
    simp [PostgresqlSadLock.release, BaseSadLock.release, ha, PostgresqlSadLock.do_release, hu]

/-- C7 witness: a held transaction-level lock with key `1`, evaluated. -/
theorem claim_C7_xact_release_noop_warning_witness :
    (⟨1, false, true⟩ : PostgresqlSadLockMixin).stmtUnlock = none
    ∧ PostgresqlSadLock.release ⟨⟨1, false, true⟩, true⟩ true
      = ⟨Except.ok (), ⟨⟨1, false, true⟩, true⟩, [Event.warn]⟩ :=
  ⟨claim_C7_xact_release_noop_warning.1 ⟨1, false, true⟩ rfl,
   claim_C7_xact_release_noop_warning.2 ⟨⟨1, false, true⟩, true⟩ true rfl rfl⟩

/-- C8: entering the scope with a configured contextual timeout performs
exactly the `acquire(timeout=t)` call (same resulting state and effects) and
raises `TimeoutError` precisely when that call returns `False` — while the
explicit `acquire` call itself returns the boolean `False`, not an error;
exiting calls `close`, which on an unlocked lock raises nothing and issues no
statement, and on a held lock performs the release. Stated generically for
the `BaseSadLock` methods. -/
theorem claim_C8_contextual_timeout_and_close :
    (∀ (σ ε S : Type) (acq : σ → Bool) (eL eT : ε) (t : Rat)
        (aD : σ → Call σ ε Bool S) (aT : Rat → σ → Call σ ε Bool S) (st : σ),
        (BaseSadLock.enter acq eL eT (some t) aD aT st).state
            = (BaseSadLock.acquire acq eL (aT t) st).state
        ∧ (BaseSadLock.enter acq eL eT (some t) aD aT st).events
            = (BaseSadLock.acquire acq eL (aT t) st).events
        ∧ ((BaseSadLock.acquire acq eL (aT t) st).ret = Except.ok false →
            (BaseSadLock.enter acq eL eT (some t) aD aT st).ret = Except.error eT)
        ∧ ((BaseSadLock.acquire acq eL (aT t) st).ret = Except.ok true →
            (BaseSadLock.enter acq eL eT (some t) aD aT st).ret = Except.ok ()))
    ∧ (∀ (σ ε S : Type) (acq : σ → Bool) (eU : ε) (dR : σ → Call σ ε Unit S) (st : σ),
        (acq st = false → BaseSadLock.close acq eU dR st = ⟨Except.ok (), st, []⟩)
        ∧ (acq st = true → BaseSadLock.close acq eU dR st = dR st)) := by
  constructor
  · intro σ ε S acq eL eT t aD aT st
    rcases hc : (BaseSadLock.acquire acq eL (aT t) st).ret with e | b
    · refine ⟨by simp [BaseSadLock.enter, hc], by simp [BaseSadLock.enter, hc], ?_, ?_⟩
      · intro h
        simp at h
      · intro h
        simp at h
    · cases b
      · refine ⟨by simp [BaseSadLock.enter, hc], by simp [BaseSadLock.enter, hc],
          fun _ => by simp [BaseSadLock.enter, hc], ?_⟩
        intro h
        simp at h
      · refine ⟨by simp [BaseSadLock.enter, hc], by simp [BaseSadLock.enter, hc], ?_,
          fun _ => by simp [BaseSadLock.enter, hc]⟩
        intro h
        simp at h
  · intro σ ε S acq eU dR st
    constructor
    · intro h
      simp [BaseSadLock.close, h]
    · intro h
      simp [BaseSadLock.close, BaseSadLock.release, h]

/-- C8 witness: a denied timed acquire makes scope entry raise the timeout
error, and close on an unlocked and on a held one-field lock state. -/
theorem claim_C8_contextual_timeout_and_close_witness :
    (BaseSadLock.enter (fun b : Bool => b) 0 1 (some 2)
        (fun b => ⟨Except.ok true, b, ([] : List (Event Unit))⟩)
        (fun _ b => ⟨Except.ok false, b, []⟩) false).ret = Except.error 1
    ∧ BaseSadLock.close (fun b : Bool => b) 0
        (fun b => ⟨Except.ok (), b, ([] : List (Event Unit))⟩) false
      = ⟨Except.ok (), false, []⟩
    ∧ BaseSadLock.close (fun b : Bool => b) 0
        (fun b => ⟨Except.ok (), b, ([] : List (Event Unit))⟩) true
      = ⟨Except.ok (), true, []⟩ :=
  ⟨(claim_C8_contextual_timeout_and_close.1 Bool Nat Unit (fun b => b) 0 1 2
      (fun b => ⟨Except.ok true, b, []⟩) (fun _ b => ⟨Except.ok false, b, []⟩) false).2.2.1 rfl,
   (claim_C8_contextual_timeout_and_close.2 Bool Nat Unit (fun b => b) 0
      (fun b => ⟨Except.ok (), b, []⟩) false).1 rfl,
   (claim_C8_contextual_timeout_and_close.2 Bool Nat Unit (fun b => b) 0
      (fun b => ⟨Except.ok (), b, []⟩) true).2 rfl⟩

/-- C6: the PostgreSQL timeout-emulation loop of `do_acquire` with
`block = True` and a finite timeout `t`: an interval below the floor is
rejected as `ValueError("interval too small")` before any poll (empty effect
list); the poll interval defaults to `SLEEP_INTERVAL_DEFAULT = 1` when not
given; a granted poll returns `True` at once after exactly that one try-lock
statement; an ungranted poll whose clock reading exceeds the start time by
more than `t` returns `False` with the state untouched (the result carries
the input state `st`); and an ungranted poll within the deadline executes the
try-lock statement, sleeps for the interval, and repeats the loop on the
remaining trace. -/
theorem claim_C6_timeout_emulation_loop :
    (∀ (st : PostgresqlSadLock) (t itv tsBegin : Rat) (polls : List (Bool × Rat)),
        itv < SLEEP_INTERVAL_MIN →
        PostgresqlSadLock.do_acquire st true (some t) (some itv) tsBegin polls
          = some ⟨Except.error PgErr.intervalTooSmall, st, []⟩)
    ∧ (SLEEP_INTERVAL_DEFAULT = 1
      ∧ ∀ (st : PostgresqlSadLock) (t tsBegin : Rat) (polls : List (Bool × Rat)),
        PostgresqlSadLock.do_acquire st true (some t) none tsBegin polls
          = PostgresqlSadLock.do_acquire st true (some t) (some SLEEP_INTERVAL_DEFAULT)
              tsBegin polls)
    ∧ (∀ (st : PostgresqlSadLock) (t itv tsBegin now : Rat) (rest : List (Bool × Rat)),
        SLEEP_INTERVAL_MIN ≤ itv → 0 ≤ t →
        PostgresqlSadLock.do_acquire st true (some t) (some itv) tsBegin ((true, now) :: rest)
          = some ⟨Except.ok true, st, [Event.exec st.mixin.stmtTryLock]⟩)
    ∧ (∀ (st : PostgresqlSadLock) (t itv tsBegin now : Rat) (rest : List (Bool × Rat)),
        SLEEP_INTERVAL_MIN ≤ itv → 0 ≤ t → now - tsBegin > t →
        PostgresqlSadLock.do_acquire st true (some t) (some itv) tsBegin ((false, now) :: rest)
          = some ⟨Except.ok false, st, [Event.exec st.mixin.stmtTryLock]⟩)
    ∧ (∀ (tryStmt : PgStmt) (t tsBegin itv now : Rat) (rest : List (Bool × Rat)),
        ¬ now - tsBegin > t →
        PostgresqlSadLock.pollLoop tryStmt t tsBegin itv ((false, now) :: rest)
          = (PostgresqlSadLock.pollLoop tryStmt t tsBegin itv rest).map
              (fun r => (r.1, Event.exec tryStmt :: Event.sleep itv :: r.2))) := by
  refine ⟨?_, ⟨rfl, ?_⟩, ?_, ?_, ?_⟩
  · intro st t itv tsBegin polls h
    simp [PostgresqlSadLock.do_acquire, h]
  · intro st t tsBegin polls
    rfl
  · intro st t itv tsBegin now rest h1 h2
    simp [PostgresqlSadLock.do_acquire, PostgresqlSadLock.pollLoop,
      not_lt.mpr h1, not_lt.mpr h2]
  · intro st t itv tsBegin now rest h1 h2 h3
    simp [PostgresqlSadLock.do_acquire, PostgresqlSadLock.pollLoop,
      not_lt.mpr h1, not_lt.mpr h2, h3]
  · intro tryStmt t tsBegin itv now rest h
    simp only [PostgresqlSadLock.pollLoop, Bool.false_eq_true, if_false, h]
    cases hp : PostgresqlSadLock.pollLoop tryStmt t tsBegin itv rest with
    | none => simp
    | some r =>
      obtain ⟨b, evs⟩ := r
      simp

/-- C6 witness: the loop evaluated on concrete traces — a too-small interval,
the default interval, an immediately granted poll, an expired poll, and an
ungranted poll inside the deadline. -/
theorem claim_C6_timeout_emulation_loop_witness :
    PostgresqlSadLock.do_acquire ⟨⟨1, false, false⟩, false⟩ true (some 5) (some (1 / 100)) 0 []
      = some ⟨Except.error PgErr.intervalTooSmall, ⟨⟨1, false, false⟩, false⟩, []⟩
    ∧ PostgresqlSadLock.do_acquire ⟨⟨1, false, false⟩, false⟩ true (some 5) none 0 []
      = PostgresqlSadLock.do_acquire ⟨⟨1, false, false⟩, false⟩ true (some 5)
          (some SLEEP_INTERVAL_DEFAULT) 0 []
    ∧ PostgresqlSadLock.do_acquire ⟨⟨1, false, false⟩, false⟩ true (some 5) (some 1) 0 [(true, 0)]
      = some ⟨Except.ok true, ⟨⟨1, false, false⟩, false⟩,
          [Event.exec (⟨⟨1, false, false⟩, false⟩ : PostgresqlSadLock).mixin.stmtTryLock]⟩
    ∧ PostgresqlSadLock.do_acquire ⟨⟨1, false, false⟩, false⟩ true (some 5) (some 1) 0 [(false, 6)]
      = some ⟨Except.ok false, ⟨⟨1, false, false⟩, false⟩,
          [Event.exec (⟨⟨1, false, false⟩, false⟩ : PostgresqlSadLock).mixin.stmtTryLock]⟩
    ∧ PostgresqlSadLock.pollLoop (PgStmt.tryLock 1) 5 0 1 [(false, 1)]
      = (PostgresqlSadLock.pollLoop (PgStmt.tryLock 1) 5 0 1 []).map
          (fun r => (r.1, Event.exec (PgStmt.tryLock 1) :: Event.sleep 1 :: r.2)) :=
  ⟨claim_C6_timeout_emulation_loop.1 ⟨⟨1, false, false⟩, false⟩ 5 (1 / 100) 0 [] (by norm_num
      [SLEEP_INTERVAL_MIN]),
   claim_C6_timeout_emulation_loop.2.1.2 ⟨⟨1, false, false⟩, false⟩ 5 0 [],
   claim_C6_timeout_emulation_loop.2.2.1 ⟨⟨1, false, false⟩, false⟩ 5 1 0 0 []
     (by norm_num [SLEEP_INTERVAL_MIN]) (by norm_num),
   claim_C6_timeout_emulation_loop.2.2.2.1 ⟨⟨1, false, false⟩, false⟩ 5 1 0 6 []
     (by norm_num [SLEEP_INTERVAL_MIN]) (by norm_num) (by norm_num),
   claim_C6_timeout_emulation_loop.2.2.2.2 (PgStmt.tryLock 1) 5 0 1 1 [] (by norm_num)⟩

end SqlalchemyDlock
